import Mathlib

/-!
Shallow embedding of the epacog epistemic-state engine
(`src/core/epistemic_state.py`), its operator library (`src/core/operators.py`),
its collapse models (`src/rupture/collapse_models.py`) and the drift-simulation
driver (`src/sim/rupture_sim.py`).

Modelling conventions:
- Python floats are modelled as exact rationals (`ℚ`); the source performs no
  operation outside field arithmetic and absolute value on the paths treated
  here.
- The `config` dict is modelled as a record of `Option` fields, one per key the
  source reads; `none` means the key is absent, and `Option.getD` mirrors the
  source's `config.get(key, default)`.
- The only source of randomness on the modelled paths is
  `np.random.normal(0, sigma)` inside the engine's default threshold
  resolution.  numpy computes that sample as `sigma * z` with `z` a standard
  normal draw, so the engine's operations thread an explicit list of standard
  draws: each default threshold resolution consumes exactly one element `z`
  from the front and adds `sigma * z`.  Injected policy callables are pure
  Lean functions (the deterministic case of the spec).
-/

namespace Epacog

/-- Value returned by an engine-level collapse hook
(`config['rupture_reset_fn']`): Python lets it be either a plain `(V, E)`
tuple, or a dict with entries `V`, `E` and an optional `type` label. -/
inductive CollapseResult where
  | pair (V E : ℚ)
  | mapping (V E : ℚ) (ty : Option String)

/-- Engine-level collapse hook: the source calls
`self.config['rupture_reset_fn'](self.V, self.E, self._time)`. -/
abbrev CollapseFn := ℚ → ℚ → ℕ → CollapseResult

/-- The engine's `config` dict, restricted to the keys the modelled source
reads: `theta0`, `a`, `sigma_theta` (threshold), `k`, `c` (realignment),
`decay_rate` (soft-decay collapse) and `rupture_reset_fn` (collapse hook). -/
structure Config where
  theta0 : Option ℚ := none
  a : Option ℚ := none
  sigma_theta : Option ℚ := none
  k : Option ℚ := none
  c : Option ℚ := none
  decay_rate : Option ℚ := none
  rupture_reset_fn : Option CollapseFn := none

/-- Injected threshold function: called as
`self.threshold_fn(self.V, delta, self.E, self._time, self.config)`. -/
abbrev ThresholdFn := ℚ → ℚ → ℚ → ℕ → Config → ℚ

/-- Injected realignment function: called as
`self.realign_fn(self.V, R, delta, self.E, self._time, self.config)`. -/
abbrev RealignFn := ℚ → ℚ → ℚ → ℚ → ℕ → Config → ℚ

/-- Injected rupture policy: called as
`self.rupture_policy(V_prev, R, delta, self.E, theta, self._time, self.config)`. -/
abbrev RupturePolicy := ℚ → ℚ → ℚ → ℚ → ℚ → ℕ → Config → Bool

/-- One entry of `EpistemicState.history`, as appended by `receive`. -/
structure Snapshot where
  t : ℕ
  V : ℚ
  R : ℚ
  delta : ℚ
  theta : ℚ
  ruptured : Bool
  collapse_type : Option String
deriving DecidableEq, Repr

/-- The engine object of `src/core/epistemic_state.py`.  `time` models the
private `_time` step counter. -/
structure EpistemicState where
  V : ℚ
  E : ℚ
  history : List Snapshot
  realign_fn : Option RealignFn
  rupture_policy : Option RupturePolicy
  threshold_fn : Option ThresholdFn
  config : Config
  time : ℕ
  collapse_type : Option String

namespace EpistemicState

/-- `EpistemicState.__init__`: fresh engine with initial projection `V0`,
initial memory `E0`, optional injected policies and config. -/
def init (V0 E0 : ℚ) (rupture_policy : Option RupturePolicy)
    (realign_fn : Option RealignFn) (threshold_fn : Option ThresholdFn)
    (config : Config) : EpistemicState :=
  { V := V0, E := E0, history := [], realign_fn := realign_fn,
    rupture_policy := rupture_policy, threshold_fn := threshold_fn,
    config := config, time := 0, collapse_type := none }

/-- `EpistemicState._resolve_threshold`: delegate to an injected
`threshold_fn` if present, else `theta0 + a*E + np.random.normal(0, sigma)`
with defaults `0.35`, `0.05`, `0.025`.  The Gaussian sample is `sigma * z`
for the next standard draw `z`; the default branch consumes that draw,
the injected branch consumes none. -/
def resolve_threshold (s : EpistemicState) (delta : ℚ) (draws : List ℚ) :
    ℚ × List ℚ :=
  match s.threshold_fn with
  | some f => (f s.V delta s.E s.time s.config, draws)
  | none =>
      let theta0 := s.config.theta0.getD 0.35
      let a := s.config.a.getD 0.05
      let sigma := s.config.sigma_theta.getD 0.025
      (theta0 + a * s.E + sigma * draws.headD 0, draws.tail)

/-- `EpistemicState._realign`: update `V` by the injected `realign_fn` or the
default linear rule `V + k*delta*(1+E)` with `k` defaulting to `0.3`, then
unconditionally `E += c*delta` with `c` defaulting to `0.1`. -/
def realign (s : EpistemicState) (delta R : ℚ) : EpistemicState :=
  let V' :=
    match s.realign_fn with
    | some f => f s.V R delta s.E s.time s.config
    | none => s.V + s.config.k.getD 0.3 * delta * (1 + s.E)
  { s with V := V', E := s.E + s.config.c.getD 0.1 * delta }

/-- `EpistemicState._rupture_reset`: if `config` holds a `rupture_reset_fn`,
call it on `(V, E, _time)` and normalize its result (dict: take `V`, `E` and
the optional `type` label; tuple: unpack and clear the label), else the
built-in default reset `(0, 0)` labeled `"default"`. -/
def rupture_reset (s : EpistemicState) : EpistemicState :=
  match s.config.rupture_reset_fn with
  | some f =>
      match f s.V s.E s.time with
      | CollapseResult.mapping V' E' ty =>
          { s with V := V', E := E', collapse_type := ty }
      | CollapseResult.pair V' E' =>
          { s with V := V', E := E', collapse_type := none }
  | none =>
      { s with V := 0, E := 0, collapse_type := some ("default") }

/-- The distortion `delta = abs (R - V_prev)` computed at the top of
`receive`. -/
def stepDelta (s : EpistemicState) (R : ℚ) : ℚ := |R - s.V|

/-- The threshold `theta = self._resolve_threshold(delta)` computed once in
`receive` (value component). -/
def stepTheta (s : EpistemicState) (R : ℚ) (draws : List ℚ) : ℚ :=
  (s.resolve_threshold (s.stepDelta R) draws).1

/-- The rupture decision of `receive`: the injected `rupture_policy` applied
to `(V_prev, R, delta, E, theta, _time, config)` if present, else the default
rule `delta > theta`. -/
def stepRupture (s : EpistemicState) (R : ℚ) (draws : List ℚ) : Bool :=
  match s.rupture_policy with
  | some p => p s.V R (s.stepDelta R) s.E (s.stepTheta R draws) s.time s.config
  | none => decide (s.stepDelta R > s.stepTheta R draws)

/-- `EpistemicState.receive(R)`: compute `delta`, resolve `theta` once, decide
rupture, apply `_rupture_reset` or `_realign`, append one snapshot recording
`_time`, the post-update `V`, `R`, `delta`, the resolved `theta`, the rupture
flag and the current `collapse_type`, then increment `_time`.  Returns the
updated engine and the unconsumed remainder of the draw list. -/
def receive (s : EpistemicState) (R : ℚ) (draws : List ℚ) :
    EpistemicState × List ℚ :=
  let delta := s.stepDelta R
  let theta := s.stepTheta R draws
  let rupture := s.stepRupture R draws
  let s1 := if rupture then s.rupture_reset else s.realign delta R
  ({ s1 with
      history := s1.history ++
        [{ t := s.time, V := s1.V, R := R, delta := delta, theta := theta,
           ruptured := rupture, collapse_type := s1.collapse_type }],
      time := s.time + 1 },
   (s.resolve_threshold delta draws).2)

/-- `EpistemicState.reset(V0, E0)`: restore caller-supplied projection and
memory, clear the step counter, the history and the collapse label. -/
def reset (s : EpistemicState) (V0 E0 : ℚ) : EpistemicState :=
  { s with V := V0, E := E0, time := 0, history := [], collapse_type := none }

/-- The most recent history entry, if any. -/
def lastSnapshot (s : EpistemicState) : Option Snapshot := s.history.getLast?

/-- Feed a list of signals through the engine in order, threading the draw
list (the driver loop restricted to `receive` calls). -/
def run (s : EpistemicState) : List ℚ → List ℚ → EpistemicState
  | [], _ => s
  | R :: Rs, draws =>
      let rd := s.receive R draws
      rd.1.run Rs rd.2

end EpistemicState

/-! Collapse models of `src/rupture/collapse_models.py`.  Their Python
signature is `(V, E, R=None, t=None, config=None)`; the optional arguments
are modelled as `Option` values. -/

/-- `collapse_reset`: hard rupture, `(0.0, 0.0)`. -/
def collapse_reset (_V _E : ℚ) (_R : Option ℚ) (_t : Option ℕ)
    (_config : Config) : ℚ × ℚ :=
  (0, 0)

/-- `collapse_soft_decay`: `(0.0, E * decay_rate)` with `decay_rate`
defaulting to `0.5`. -/
def collapse_soft_decay (_V : ℚ) (E : ℚ) (_R : Option ℚ) (_t : Option ℕ)
    (config : Config) : ℚ × ℚ :=
  (0, E * config.decay_rate.getD 0.5)

/-- `collapse_adopt_R`: raises
`ValueError("collapse_adopt_R requires a non-null R")` when `R is None`,
else returns `(R, 0.0)`.  The raise is modelled as `Except.error` carrying
the message. -/
def collapse_adopt_R (_V _E : ℚ) (R : Option ℚ) (_t : Option ℕ)
    (_config : Config) : Except String (ℚ × ℚ) :=
  match R with
  | none => Except.error ("collapse_adopt_R requires a non-null R")
  | some r => Except.ok (r, 0)

/-- Labeled dict returned by a `collapse_symbolic`-wrapped collapse
function. -/
structure LabeledCollapse where
  V : ℚ
  E : ℚ
  ty : String
deriving DecidableEq, Repr

/-- `collapse_symbolic(base_collapse_fn, collapse_type)`: wraps a pair-valued
collapse function, returning a dict with keys `V`, `E` and `type` set to the
caller-chosen label. -/
def collapse_symbolic
    (base_collapse_fn : ℚ → ℚ → Option ℚ → Option ℕ → Config → ℚ × ℚ)
    (collapse_type : String) (V E : ℚ) (R : Option ℚ) (t : Option ℕ)
    (config : Config) : LabeledCollapse :=
  let p := base_collapse_fn V E R t config
  { V := p.1, E := p.2, ty := collapse_type }

/-- `build_rupture_policy(strategy, **kwargs)` of `src/core/operators.py`:
dispatch on the strategy string, falling back to `False` for anything
unrecognized.  Modelling choices: `theta_fn` is the required form of the
kwarg (the source's fallback `default_theta` is a fresh stochastic closure,
unused by the claims treated here); `peer_states` is the list of the peers'
memory values, `.E` being the only attribute the source reads from a peer;
the stochastic branch's comparison `np.random.rand() < prob` (with `prob`
from `probability_fn` or a transcendental sigmoid) is abstracted into the
oracle `stochastic_draw`. -/
def build_rupture_policy (strategy : String)
    (theta_fn : ℚ → ℚ → Config → ℚ)
    (peer_states : List ℚ)
    (hybrid_fn : Option (ℚ → ℚ → ℚ → ℚ → ℕ → Config → Bool))
    (stochastic_draw : ℚ → ℚ → ℚ → ℚ → ℕ → Config → Bool)
    (V R delta E : ℚ) (t : ℕ) (config : Config) : Bool :=
  if strategy = "threshold" then
    decide (delta > theta_fn delta E config)
  else if strategy = "consensus" then
    if peer_states.isEmpty then
      false
    else
      let peer_thetas := peer_states.map fun pE => theta_fn delta pE config
      decide (delta > peer_thetas.sum / (peer_thetas.length : ℚ))
  else if strategy = "stochastic" then
    stochastic_draw V R delta E t config
  else if strategy = "hybrid" then
    match hybrid_fn with
    | some f => f V R delta E t config
    | none => false
  else
    false

/-! The drift-simulation driver of `src/sim/rupture_sim.py`. -/

/-- The method names defined by `class EpistemicState` in
`src/core/epistemic_state.py`. -/
def epistemicStateMethods : List String :=
  ["__init__", "receive", "_realign", "_rupture_reset", "_resolve_threshold",
   "state", "projected_divergence", "rupture_risk", "reset", "symbol",
   "__repr__"]

/-- The method names defined by the duplicate `class EpistemicState` in
`src/epistemic_state.py`. -/
def epistemicStateMethodsRoot : List String :=
  ["__init__", "receive", "_realign", "_rupture_reset", "_resolve_threshold",
   "state", "projected_divergence", "rupture_risk", "reset", "__repr__"]

/-- Python error values raised on the driver's modelled paths. -/
inductive PyError where
  | attributeError (attr : String)
deriving DecidableEq, Repr

/-- Loop body of `simulate_epistemic_drift`, one recursive call per remaining
iteration of `for t in range(steps)`.  Each iteration indexes
`signal_sequence[t]` (an out-of-range index raises IndexError, caught as
`break`), then evaluates the attribute access `state.step(R)`: the class
defines no method named `"step"` (see `epistemicStateMethods`), so Python
raises `AttributeError`.  The branch guarded by the membership test is the
rest of the source loop body (snapshot collection and rupture
post-processing); it is unreachable, and is modelled as advancing the engine
without recording, the choice being irrelevant to any reachable behavior. -/
def simDriftGo (s : EpistemicState) (sigs : List ℚ) (t : ℕ) (draws : List ℚ)
    (trace : List Snapshot) : ℕ → Except PyError (List Snapshot)
  | 0 => Except.ok trace.reverse
  | fuel + 1 =>
      match sigs.get? t with
      | none => Except.ok trace.reverse
      | some R =>
          if "step" ∈ epistemicStateMethods then
            let rd := s.receive R draws
            simDriftGo rd.1 sigs (t + 1) rd.2 trace fuel
          else
            Except.error (PyError.attributeError ("step"))

/-- `simulate_epistemic_drift(initial_state, signal_sequence, steps, ...)`
restricted to list-valued signal sequences: iterate the loop body `steps`
times from `t = 0` with an empty trace. -/
def simulate_epistemic_drift (initial_state : EpistemicState)
    (signal_sequence : List ℚ) (steps : ℕ) (draws : List ℚ) :
    Except PyError (List Snapshot) :=
  simDriftGo initial_state signal_sequence 0 draws [] steps

/-! Concrete policy-free engines and policy values used by the concrete parts
of the claims. -/

/-- The config of the spec's default-rupture-rule scenario:
`theta0 = 0.2`, `a = 0`, `sigma_theta = 0`. -/
def cfg02 : Config := { theta0 := some 0.2, a := some 0, sigma_theta := some 0 }

/-- A fresh engine from `V0 = 0`, `E0 = 0` with no injected policies and
config `cfg02`. -/
def engine02 : EpistemicState := EpistemicState.init 0 0 none none none cfg02

/-! Helper lemmas about the engine's private steps. -/

theorem realign_fields (s : EpistemicState) (d R : ℚ) :
    (s.realign d R).history = s.history ∧ (s.realign d R).time = s.time
      ∧ (s.realign d R).realign_fn = s.realign_fn
      ∧ (s.realign d R).rupture_policy = s.rupture_policy
      ∧ (s.realign d R).threshold_fn = s.threshold_fn
      ∧ (s.realign d R).config = s.config
      ∧ (s.realign d R).collapse_type = s.collapse_type
      ∧ (s.realign d R).E = s.E + s.config.c.getD 0.1 * d :=
  ⟨rfl, rfl, rfl, rfl, rfl, rfl, rfl, rfl⟩

theorem rupture_reset_fields (s : EpistemicState) :
    s.rupture_reset.history = s.history ∧ s.rupture_reset.time = s.time
      ∧ s.rupture_reset.realign_fn = s.realign_fn
      ∧ s.rupture_reset.rupture_policy = s.rupture_policy
      ∧ s.rupture_reset.threshold_fn = s.threshold_fn
      ∧ s.rupture_reset.config = s.config := by
  unfold EpistemicState.rupture_reset
  split
  · split <;> exact ⟨rfl, rfl, rfl, rfl, rfl, rfl⟩
  · exact ⟨rfl, rfl, rfl, rfl, rfl, rfl⟩

theorem receive_history_eq (s : EpistemicState) (R : ℚ) (draws : List ℚ) :
    (s.receive R draws).1.history = s.history ++
      [{ t := s.time,
         V := (if s.stepRupture R draws then s.rupture_reset
               else s.realign (s.stepDelta R) R).V,
         R := R, delta := s.stepDelta R, theta := s.stepTheta R draws,
         ruptured := s.stepRupture R draws,
         collapse_type := (if s.stepRupture R draws then s.rupture_reset
                           else s.realign (s.stepDelta R) R).collapse_type }] := by
  unfold EpistemicState.receive
  cases hr : s.stepRupture R draws <;>
    simp [hr, (realign_fields s (s.stepDelta R) R).1, (rupture_reset_fields s).1]

theorem receive_lastSnapshot (s : EpistemicState) (R : ℚ) (draws : List ℚ) :
    (s.receive R draws).1.lastSnapshot = some
      { t := s.time,
        V := (if s.stepRupture R draws then s.rupture_reset
              else s.realign (s.stepDelta R) R).V,
        R := R, delta := s.stepDelta R, theta := s.stepTheta R draws,
        ruptured := s.stepRupture R draws,
        collapse_type := (if s.stepRupture R draws then s.rupture_reset
                          else s.realign (s.stepDelta R) R).collapse_type } := by
  unfold EpistemicState.lastSnapshot
  rw [receive_history_eq]
  simp

theorem receive_time_eq (s : EpistemicState) (R : ℚ) (draws : List ℚ) :
    (s.receive R draws).1.time = s.time + 1 := rfl

theorem receive_history_length (s : EpistemicState) (R : ℚ) (draws : List ℚ) :
    (s.receive R draws).1.history.length = s.history.length + 1 := by
  rw [receive_history_eq]
  simp

theorem run_time_eq_length (sigs : List ℚ) : ∀ (s : EpistemicState) (draws : List ℚ),
    s.time = s.history.length →
    (s.run sigs draws).time = (s.run sigs draws).history.length := by
  induction sigs with
  | nil => intro s draws h; exact h
  | cons R Rs ih =>
      intro s draws h
      show ((s.receive R draws).1.run Rs (s.receive R draws).2).time = _
      exact ih _ _ (by rw [receive_time_eq, receive_history_length, h])

/-- Claim C1: one completed `receive(R)` appends exactly one snapshot to
`history` and increments `step_index` (`_time`) by exactly one, so
`step_index = len(history)` is preserved by every `receive` and holds along
every run from a fresh engine; `reset(V0, E0)` re-establishes it with
`step_index = 0` and empty history. -/
theorem receive_step_index_matches_history (s : EpistemicState) (R : ℚ)
    (draws : List ℚ) (V0 E0 : ℚ) :
    (s.receive R draws).1.history.length = s.history.length + 1
    ∧ (s.receive R draws).1.time = s.time + 1
    ∧ (s.time = s.history.length →
        (s.receive R draws).1.time = (s.receive R draws).1.history.length)
    ∧ (∀ sigs ds, ((EpistemicState.init V0 E0 s.rupture_policy s.realign_fn
          s.threshold_fn s.config).run sigs ds).time
        = ((EpistemicState.init V0 E0 s.rupture_policy s.realign_fn
          s.threshold_fn s.config).run sigs ds).history.length)
    ∧ (s.reset V0 E0).time = 0 ∧ (s.reset V0 E0).history = [] := by
  refine ⟨receive_history_length s R draws, receive_time_eq s R draws, ?_, ?_, rfl, rfl⟩
  · intro h
    rw [receive_time_eq, receive_history_length, h]
  · intro sigs ds
    exact run_time_eq_length sigs _ ds rfl

/-- Closed witness for C1 at a concrete engine and signal. -/
theorem receive_step_index_matches_history_witness :
    (engine02.receive 1 []).1.time = (engine02.receive 1 []).1.history.length :=
  (receive_step_index_matches_history engine02 1 [] 0 0).2.2.1 rfl

/-- Claim C2: on a non-rupture step, `receive` sets the new projection
solely by the realignment step (injected `realign_fn`, or by default
`V + k*delta*(1+E)` with `k` defaulting to `0.3`) and then unconditionally
sets `E' = E + c*delta` with `c` defaulting to `0.1`, using the same
`delta`; on a rupture step the engine's state comes from `_rupture_reset`
and the memory-increase rule is not applied. -/
theorem nonrupture_realign_and_memory_update (s : EpistemicState) (R : ℚ)
    (draws : List ℚ) (d : ℚ) :
    (s.stepRupture R draws = false →
       (s.receive R draws).1.V = (s.realign (s.stepDelta R) R).V
       ∧ (s.receive R draws).1.E = s.E + s.config.c.getD 0.1 * s.stepDelta R)
    ∧ (s.realign_fn = none →
       (s.realign d R).V = s.V + s.config.k.getD 0.3 * d * (1 + s.E))
    ∧ (s.stepRupture R draws = true →
       (s.receive R draws).1.V = s.rupture_reset.V
       ∧ (s.receive R draws).1.E = s.rupture_reset.E) := by
  refine ⟨?_, ?_, ?_⟩
  · intro hr
    unfold EpistemicState.receive
    rw [hr]
    exact ⟨rfl, rfl⟩
  · intro hf
    unfold EpistemicState.realign
    rw [hf]
  · intro hr
    unfold EpistemicState.receive
    rw [hr]
    exact ⟨rfl, rfl⟩

/-- Closed witness for C2: a non-rupture step of a concrete engine applies
the default realignment and memory rule. -/
theorem nonrupture_realign_and_memory_update_witness :
    (engine02.receive 0.1 []).1.V = (engine02.realign (engine02.stepDelta 0.1) 0.1).V
    ∧ (engine02.receive 0.1 []).1.E
        = engine02.E + engine02.config.c.getD 0.1 * engine02.stepDelta 0.1 :=
  (nonrupture_realign_and_memory_update engine02 0.1 [] 0).1 (by
    norm_num [engine02, cfg02, EpistemicState.stepRupture, EpistemicState.stepDelta,
      EpistemicState.stepTheta, EpistemicState.resolve_threshold, EpistemicState.init,
      abs_of_nonneg])

/-- Claim C3: with no rupture policy injected, `receive` decides rupture by
the default rule `delta > theta`; concretely, with `theta0 = 0.2`, `a = 0`,
`sigma_theta = 0`, from `V = 0` the signal `R = 1.0` ruptures
(`delta = 1 > 0.2`) and `R = 0.1` does not (`delta = 0.1 ≤ 0.2`). -/
theorem default_rupture_rule (s : EpistemicState) (R : ℚ) (draws : List ℚ) :
    (s.rupture_policy = none →
       s.stepRupture R draws = decide (s.stepDelta R > s.stepTheta R draws))
    ∧ engine02.stepDelta 1 = 1 ∧ engine02.stepTheta 1 [] = 0.2
    ∧ engine02.stepDelta 0.1 = 0.1 ∧ engine02.stepTheta 0.1 [] = 0.2
    ∧ (engine02.receive 1 []).1.lastSnapshot.map Snapshot.ruptured = some true
    ∧ (engine02.receive 0.1 []).1.lastSnapshot.map Snapshot.ruptured = some false := by
  refine ⟨?_, ?_, ?_, ?_, ?_, ?_, ?_⟩
  · intro h
    unfold EpistemicState.stepRupture
    rw [h]
  · norm_num [engine02, cfg02, EpistemicState.stepDelta, EpistemicState.init]
  · norm_num [engine02, cfg02, EpistemicState.stepTheta, EpistemicState.stepDelta,
      EpistemicState.resolve_threshold, EpistemicState.init]
  · norm_num [engine02, cfg02, EpistemicState.stepDelta, EpistemicState.init,
      abs_of_nonneg]
  · norm_num [engine02, cfg02, EpistemicState.stepTheta, EpistemicState.stepDelta,
      EpistemicState.resolve_threshold, EpistemicState.init]
  · rw [receive_lastSnapshot]
    norm_num [engine02, cfg02, EpistemicState.stepRupture, EpistemicState.stepDelta,
      EpistemicState.stepTheta, EpistemicState.resolve_threshold, EpistemicState.init]
  · rw [receive_lastSnapshot]
    norm_num [engine02, cfg02, EpistemicState.stepRupture, EpistemicState.stepDelta,
      EpistemicState.stepTheta, EpistemicState.resolve_threshold, EpistemicState.init,
      abs_of_nonneg]

/-- Closed witness for C3 at a concrete policy-free engine. -/
theorem default_rupture_rule_witness :
    engine02.stepRupture 1 []
      = decide (engine02.stepDelta 1 > engine02.stepTheta 1 []) :=
  (default_rupture_rule engine02 1 []).1 rfl

/-- Claim C4: in each `receive` call the threshold is resolved exactly once
— with the default (possibly stochastic) threshold exactly one standard
draw is consumed — and that single value is both the `theta` of the rupture
decision and the `theta` recorded in the step's snapshot. -/
theorem threshold_resolved_once (s : EpistemicState) (R : ℚ) (draws : List ℚ) :
    (s.receive R draws).1.lastSnapshot.map Snapshot.theta
        = some (s.stepTheta R draws)
    ∧ (s.rupture_policy = none →
        (s.receive R draws).1.lastSnapshot.map Snapshot.ruptured
          = some (decide (s.stepDelta R > s.stepTheta R draws)))
    ∧ (s.threshold_fn = none →
        (s.receive R draws).2 = draws.tail
        ∧ s.stepTheta R draws
            = s.config.theta0.getD 0.35 + s.config.a.getD 0.05 * s.E
              + s.config.sigma_theta.getD 0.025 * draws.headD 0)
    ∧ (∀ f, s.threshold_fn = some f →
        (s.receive R draws).2 = draws
        ∧ s.stepTheta R draws = f s.V (s.stepDelta R) s.E s.time s.config) := by
  refine ⟨?_, ?_, ?_, ?_⟩
  · rw [receive_lastSnapshot]
    rfl
  · intro h
    rw [receive_lastSnapshot]
    unfold EpistemicState.stepRupture
    rw [h]
    rfl
  · intro h
    constructor
    · show (s.resolve_threshold (s.stepDelta R) draws).2 = draws.tail
      unfold EpistemicState.resolve_threshold
      rw [h]
    · unfold EpistemicState.stepTheta EpistemicState.resolve_threshold
      rw [h]
  · intro f h
    constructor
    · show (s.resolve_threshold (s.stepDelta R) draws).2 = draws
      unfold EpistemicState.resolve_threshold
      rw [h]
    · unfold EpistemicState.stepTheta EpistemicState.resolve_threshold
      rw [h]

/-- Closed witness for C4: with the default threshold, one `receive`
consumes exactly one standard draw, and the snapshot records the value the
decision used. -/
theorem threshold_resolved_once_witness :
    (engine02.receive 1 [7, 9]).2 = [9]
    ∧ (engine02.receive 1 [7, 9]).1.lastSnapshot.map Snapshot.theta
        = some (engine02.stepTheta 1 [7, 9]) :=
  ⟨((threshold_resolved_once engine02 1 [7, 9]).2.2.1 rfl).1,
   (threshold_resolved_once engine02 1 [7, 9]).1⟩

/-- Claim C5: on a rupture step the engine normalizes whatever the
configured collapse hook returns — a labeled mapping contributes its `V`,
`E` and its label as `collapse_type`; a plain pair is unpacked with the
label cleared; and with no hook configured the engine applies its built-in
reset `(0, 0)` labeled `"default"`.  The `collapse_symbolic` wrapper is
what produces the labeled-mapping form from a pair-valued collapse model. -/
theorem rupture_collapse_normalization (s : EpistemicState) (f : CollapseFn)
    (V' E' : ℚ) (ty : Option String) :
    (s.config.rupture_reset_fn = some f →
       (f s.V s.E s.time = CollapseResult.mapping V' E' ty →
          s.rupture_reset = { s with V := V', E := E', collapse_type := ty })
       ∧ (f s.V s.E s.time = CollapseResult.pair V' E' →
          s.rupture_reset = { s with V := V', E := E', collapse_type := none }))
    ∧ (s.config.rupture_reset_fn = none →
        s.rupture_reset
          = { s with V := 0, E := 0, collapse_type := some ("default") })
    ∧ (∀ base lab R t cfg,
        collapse_symbolic base lab s.V s.E R t cfg
          = { V := (base s.V s.E R t cfg).1, E := (base s.V s.E R t cfg).2,
              ty := lab }) := by
  refine ⟨fun hc => ⟨fun hr => ?_, fun hr => ?_⟩, fun hc => ?_, fun _ _ _ _ _ => rfl⟩
  · simp only [EpistemicState.rupture_reset, hc, hr]
  · simp only [EpistemicState.rupture_reset, hc, hr]
  · simp only [EpistemicState.rupture_reset, hc]

/-- A collapse hook returning the labeled-mapping form, used by the C5
witness. -/
def mappingHook : CollapseFn := fun _ _ _ => CollapseResult.mapping 5 7 (some ("X"))

/-- A concrete engine configured with `mappingHook` as its collapse hook. -/
def engineHooked : EpistemicState :=
  EpistemicState.init 1 2 none none none { rupture_reset_fn := some mappingHook }

/-- Closed witness for C5: the labeled mapping's values and label are
adopted. -/
theorem rupture_collapse_normalization_witness :
    engineHooked.rupture_reset
      = { engineHooked with V := 5, E := 7, collapse_type := some ("X") } :=
  ((rupture_collapse_normalization engineHooked mappingHook 5 7 (some ("X"))).1
    rfl).1 rfl

/-- Counterexample to Claim C6 as stated: after a labeled rupture, the
engine's `collapse_type` persists, so the snapshot of a later non-rupture
step carries the stale label.  With `engine02` (as in C3), `receive(1.0)`
ruptures and labels the state `"default"`; the following `receive(0.1)`
does not rupture, yet its snapshot's collapse type is `some "default"`,
not null. -/
theorem nonrupture_snapshot_stale_label :
    ((engine02.receive 1 []).1.receive 0.1 []).1.history.map
        (fun sn => (sn.ruptured, sn.collapse_type))
      = [(true, some ("default")), (false, some ("default"))] := by
  norm_num [engine02, cfg02, EpistemicState.receive, EpistemicState.init,
    EpistemicState.stepDelta, EpistemicState.stepTheta, EpistemicState.stepRupture,
    EpistemicState.resolve_threshold, EpistemicState.realign,
    EpistemicState.rupture_reset, abs_of_nonneg]

/-- Claim C6 (amended): a snapshot's collapse-type field records the
engine's `collapse_type` as of the end of the step: a rupture step records
the label produced by that step's collapse normalization, while a
non-rupture step leaves the label unchanged and records the persisting
value — in particular it is null whenever the engine's label is null going
into the step (e.g. when no rupture has occurred since construction or
reset), but not in general. -/
theorem snapshot_collapse_label_persistence (s : EpistemicState) (R : ℚ)
    (draws : List ℚ) :
    (s.stepRupture R draws = false →
       (s.receive R draws).1.lastSnapshot.map Snapshot.collapse_type
           = some s.collapse_type
       ∧ (s.receive R draws).1.collapse_type = s.collapse_type)
    ∧ (s.collapse_type = none → s.stepRupture R draws = false →
       (s.receive R draws).1.lastSnapshot.map Snapshot.collapse_type = some none)
    ∧ (s.stepRupture R draws = true →
       (s.receive R draws).1.lastSnapshot.map Snapshot.collapse_type
         = some s.rupture_reset.collapse_type) := by
  refine ⟨fun hr => ⟨?_, ?_⟩, fun hn hr => ?_, fun hr => ?_⟩
  · rw [receive_lastSnapshot, hr]
    simp [(realign_fields s (s.stepDelta R) R).2.2.2.2.2.2.1]
  · show (if s.stepRupture R draws then s.rupture_reset
          else s.realign (s.stepDelta R) R).collapse_type = s.collapse_type
    rw [hr]
    simp [(realign_fields s (s.stepDelta R) R).2.2.2.2.2.2.1]
  · rw [receive_lastSnapshot, hr]
    simp [(realign_fields s (s.stepDelta R) R).2.2.2.2.2.2.1, hn]
  · rw [receive_lastSnapshot, hr]
    simp

/-- Closed witness for C6 (amended) on a fresh engine's first, non-rupture
step. -/
theorem snapshot_collapse_label_persistence_witness :
    (engine02.receive 0.1 []).1.lastSnapshot.map Snapshot.collapse_type
      = some none :=
  (snapshot_collapse_label_persistence engine02 0.1 []).2.1 rfl (by
    norm_num [engine02, cfg02, EpistemicState.stepRupture, EpistemicState.stepDelta,
      EpistemicState.stepTheta, EpistemicState.resolve_threshold, EpistemicState.init,
      abs_of_nonneg])

/-- Claim C7: `collapse_adopt_R` raises the invalid-input error exactly when
the received signal is absent; for every present `R` it returns `(R, 0.0)`
without error. -/
theorem adopt_R_requires_signal (V E : ℚ) (t : Option ℕ) (cfg : Config) :
    collapse_adopt_R V E none t cfg
        = Except.error ("collapse_adopt_R requires a non-null R")
    ∧ (∀ r : ℚ, collapse_adopt_R V E (some r) t cfg = Except.ok (r, 0)) :=
  ⟨rfl, fun _ => rfl⟩

/-- The theta function of the spec's consensus scenario:
`theta = 0.5 + 0.5 * E`. -/
def consensusTheta : ℚ → ℚ → Config → ℚ := fun _ E _ => 0.5 + 0.5 * E

/-- Stochastic-branch oracle that never ruptures, standing in an unused
argument slot of `build_rupture_policy` in the consensus scenario. -/
def neverDraw : ℚ → ℚ → ℚ → ℚ → ℕ → Config → Bool := fun _ _ _ _ _ _ => false

/-- Claim C8: the consensus strategy returns `False` for every input when
the peer list is empty; with non-empty peers it averages the theta function
applied to each peer's own memory and tests `delta > mean`; concretely with
peer memories `0.1` and `0.2` and `theta = 0.5 + 0.5 * E` the mean is
`0.575`, so `delta = 1.0` ruptures and `delta = 0.1` does not. -/
theorem consensus_policy (theta_fn : ℚ → ℚ → Config → ℚ)
    (hybrid_fn : Option (ℚ → ℚ → ℚ → ℚ → ℕ → Config → Bool))
    (sd : ℚ → ℚ → ℚ → ℚ → ℕ → Config → Bool) (peers : List ℚ)
    (V R delta E : ℚ) (t : ℕ) (cfg : Config) :
    build_rupture_policy ("consensus") theta_fn [] hybrid_fn sd V R delta E t cfg
        = false
    ∧ (peers ≠ [] →
        build_rupture_policy ("consensus") theta_fn peers hybrid_fn sd V R delta E t cfg
          = decide (delta >
              (peers.map fun pE => theta_fn delta pE cfg).sum / (peers.length : ℚ)))
    ∧ ([(0.1 : ℚ), 0.2].map fun pE => consensusTheta 1 pE {}).sum
          / (([(0.1 : ℚ), 0.2].map fun pE => consensusTheta 1 pE {}).length : ℚ)
        = 0.575
    ∧ build_rupture_policy ("consensus") consensusTheta [0.1, 0.2] none neverDraw
        0 1 1 0.1 0 {} = true
    ∧ build_rupture_policy ("consensus") consensusTheta [0.1, 0.2] none neverDraw
        0 0.1 0.1 0.1 0 {} = false := by
  refine ⟨?_, ?_, ?_, ?_, ?_⟩
  · simp [build_rupture_policy]
  · intro hne
    simp [build_rupture_policy, List.isEmpty_iff, hne]
  · norm_num [consensusTheta]
  · norm_num [build_rupture_policy, consensusTheta]
  · norm_num [build_rupture_policy, consensusTheta]

/-- Closed witness for C8: the general mean formula applied at the concrete
peer list of the scenario. -/
theorem consensus_policy_witness :
    build_rupture_policy ("consensus") consensusTheta [0.1, 0.2] none neverDraw
        0 1 1 0.1 0 {}
      = decide ((1 : ℚ) >
          ([(0.1 : ℚ), 0.2].map fun pE => consensusTheta 1 pE {}).sum
            / (([(0.1 : ℚ), 0.2] : List ℚ).length : ℚ)) :=
  (consensus_policy consensusTheta none neverDraw [0.1, 0.2] 0 1 1 0.1 0 {}).2.1
    (by simp)

/-! Determinism of a run (Claim C9).  An engine is non-stochastic when an
injected threshold function is present (injected callables are pure in the
embedding) or the default threshold's noise amplitude `sigma_theta` is
configured to `0`; in either case the standard draws are irrelevant. -/

/-- The engine's threshold resolution is non-stochastic. -/
def deterministicThreshold (s : EpistemicState) : Prop :=
  s.threshold_fn.isSome = true ∨ s.config.sigma_theta = some 0

theorem stepTheta_draws_irrelevant (s : EpistemicState) (R : ℚ)
    (d1 d2 : List ℚ) (h : deterministicThreshold s) :
    s.stepTheta R d1 = s.stepTheta R d2 := by
  unfold EpistemicState.stepTheta EpistemicState.resolve_threshold
  cases hf : s.threshold_fn with
  | some f => simp
  | none =>
      rcases h with h | h
      · rw [hf] at h
        simp at h
      · simp [h]

theorem stepRupture_draws_irrelevant (s : EpistemicState) (R : ℚ)
    (d1 d2 : List ℚ) (h : deterministicThreshold s) :
    s.stepRupture R d1 = s.stepRupture R d2 := by
  unfold EpistemicState.stepRupture
  rw [stepTheta_draws_irrelevant s R d1 d2 h]

theorem receive_fst_draws_irrelevant (s : EpistemicState) (R : ℚ)
    (d1 d2 : List ℚ) (h : deterministicThreshold s) :
    (s.receive R d1).1 = (s.receive R d2).1 := by
  unfold EpistemicState.receive
  rw [stepTheta_draws_irrelevant s R d1 d2 h,
    stepRupture_draws_irrelevant s R d1 d2 h]

theorem receive_deterministicThreshold (s : EpistemicState) (R : ℚ)
    (d : List ℚ) (h : deterministicThreshold s) :
    deterministicThreshold (s.receive R d).1 := by
  unfold deterministicThreshold at h ⊢
  show (if s.stepRupture R d then s.rupture_reset
        else s.realign (s.stepDelta R) R).threshold_fn.isSome = true
    ∨ (if s.stepRupture R d then s.rupture_reset
        else s.realign (s.stepDelta R) R).config.sigma_theta = some 0
  cases hr : s.stepRupture R d <;>
    simp only [if_true, if_false, Bool.false_eq_true, ite_false, ite_true,
      (realign_fields s (s.stepDelta R) R).2.2.2.2.1,
      (realign_fields s (s.stepDelta R) R).2.2.2.2.2.1,
      (rupture_reset_fields s).2.2.2.2.1,
      (rupture_reset_fields s).2.2.2.2.2] <;>
    exact h

theorem run_draws_irrelevant : ∀ (sigs : List ℚ) (s : EpistemicState)
    (d1 d2 : List ℚ), deterministicThreshold s →
    s.run sigs d1 = s.run sigs d2
  | [], _, _, _, _ => rfl
  | R :: Rs, s, d1, d2, h => by
      show (s.receive R d1).1.run Rs (s.receive R d1).2
        = (s.receive R d2).1.run Rs (s.receive R d2).2
      rw [receive_fst_draws_irrelevant s R d1 d2 h]
      exact run_draws_irrelevant Rs (s.receive R d2).1 (s.receive R d1).2
        (s.receive R d2).2 (receive_deterministicThreshold s R d2 h)

/-- Claim C9: feeding the same signal sequence to two freshly constructed
engines with identical initial values, identical injected policies
(injected callables are pure, hence deterministic, in the embedding), a
non-stochastic threshold (injected, or default with `sigma_theta = 0`) and
identical configs yields identical histories: the randomness stream — the
only way two identically-built engines can diverge — is irrelevant. -/
theorem replay_identical_histories (V0 E0 : ℚ) (rp : Option RupturePolicy)
    (rf : Option RealignFn) (tf : Option ThresholdFn) (cfg : Config)
    (sigs d1 d2 : List ℚ)
    (h : tf.isSome = true ∨ cfg.sigma_theta = some 0) :
    ((EpistemicState.init V0 E0 rp rf tf cfg).run sigs d1).history
      = ((EpistemicState.init V0 E0 rp rf tf cfg).run sigs d2).history := by
  rw [run_draws_irrelevant sigs (EpistemicState.init V0 E0 rp rf tf cfg) d1 d2 h]

/-- Closed witness for C9: a deterministic policy-free engine replayed on
the same two signals under different draw streams. -/
theorem replay_identical_histories_witness :
    ((EpistemicState.init 0 0 none none none cfg02).run [1, 0.1] []).history
      = ((EpistemicState.init 0 0 none none none cfg02).run [1, 0.1] [3, 4]).history :=
  replay_identical_histories 0 0 none none none cfg02 [1, 0.1] [] [3, 4]
    (Or.inr rfl)

/-- Claim C10: neither copy of the class defines a `step` method, so for
every engine and every non-empty signal sequence (and at least one
requested step), `simulate_epistemic_drift` raises `AttributeError` on its
first iteration at the call `state.step(R)` and produces no trace. -/
theorem drift_driver_step_attribute_error (s : EpistemicState)
    (sigs : List ℚ) (steps : ℕ) (draws : List ℚ)
    (hs : sigs ≠ []) (hst : 1 ≤ steps) :
    simulate_epistemic_drift s sigs steps draws
        = Except.error (PyError.attributeError ("step"))
    ∧ "step" ∉ epistemicStateMethods ∧ "step" ∉ epistemicStateMethodsRoot := by
  refine ⟨?_, by decide, by decide⟩
  obtain ⟨R, Rs, rfl⟩ : ∃ R Rs, sigs = R :: Rs := by
    cases sigs with
    | nil => exact absurd rfl hs
    | cons R Rs => exact ⟨R, Rs, rfl⟩
  obtain ⟨n, rfl⟩ : ∃ n, steps = n + 1 := ⟨steps - 1, by omega⟩
  simp [simulate_epistemic_drift, simDriftGo, epistemicStateMethods]

/-- Closed witness for C10 at a concrete engine, signal list and step
count. -/
theorem drift_driver_step_attribute_error_witness :
    simulate_epistemic_drift engine02 [1, 2] 100 []
      = Except.error (PyError.attributeError ("step")) :=
  (drift_driver_step_attribute_error engine02 [1, 2] 100 [] (by simp)
    (by omega)).1

end Epacog
